import Mathlib

/-!
Verification of the OTDR loss-analysis core (`sor_analiz.py`): the
distance-calibration heuristic (`auto_distance_factor`), the event-table
loss-accumulation scan (`extract_events_table`) and the summary derivation
(`summarize`), plus the caller-side distance-mode resolution from `main`.

Numbers are modelled as rationals (ℚ); optional/nullable numeric fields as
`Option ℚ`, read with the Python idiom `x.get(k) or 0.0` embedded as
`Option.getD · 0`.
-/

namespace SorAnaliz

/-- The optional `event_type_details` mapping of an event: descriptive
`event` / `note` fields. -/
structure EventTypeDetails where
  event : Option String
  note : Option String
  deriving DecidableEq, Repr

/-- One raw event record of the `KeyEvents` block, as produced by the
external decoder. Numeric fields are nullable. -/
structure Event where
  event_number : Option ℤ
  distance_of_travel : Option ℚ
  slope : Option ℚ
  splice_loss : Option ℚ
  reflection_loss : Option ℚ
  event_type : Option String
  event_type_details : Option EventTypeDetails
  comment : Option String
  deriving DecidableEq, Repr

/-- The `KeyEvents` block: scalar metadata plus the ordered event list
(the list itself may be absent, `ke.get("events") or []`). -/
structure KeyEvents where
  fiber_length : Option ℚ
  total_loss : Option ℚ
  optical_return_loss : Option ℚ
  events : Option (List Event)
  deriving DecidableEq, Repr

/-- The parsed Measurement Blocks mapping, restricted to the block the
core reads (`blocks.get("KeyEvents")`, possibly absent). -/
structure Blocks where
  KeyEvents : Option SorAnaliz.KeyEvents
  deriving DecidableEq, Repr

/-- `{}`: the empty mapping substituted by `blocks.get("KeyEvents") or {}`. -/
def emptyKeyEvents : KeyEvents :=
  { fiber_length := none, total_loss := none, optical_return_loss := none,
    events := none }

/-- `ke = blocks.get("KeyEvents") or {}`. -/
def keOf (blocks : Blocks) : KeyEvents :=
  blocks.KeyEvents.getD emptyKeyEvents

/-- `events = ke.get("events") or []`. -/
def eventsOf (blocks : Blocks) : List Event :=
  (keOf blocks).events.getD []

/-- `max((float(e.get("distance_of_travel") or 0.0) for e in events), default=0.0)`:
the maximum per-event raw distance, `0` for an empty list. -/
def maxEventDistance (events : List Event) : ℚ :=
  match events.map (fun e => e.distance_of_travel.getD 0) with
  | [] => 0
  | d :: ds => ds.foldl max d

/-- `auto_distance_factor` (src/sor_analiz.py lines 23-46): the ratio
heuristic deciding the one-way/round-trip scale factor. -/
def auto_distance_factor (blocks : Blocks) : ℚ :=
  let ke := keOf blocks
  let events := ke.events.getD []
  let max_ev := maxEventDistance events
  match ke.fiber_length with
  | some fl =>
      if fl ≠ 0 ∧ max_ev ≠ 0 then
        let r := max_ev / fl
        if 17/10 < r ∧ r < 23/10 then 1/2
        else if 85/100 < r ∧ r < 115/100 then 1
        else 1/2
      else 1/2
  | none => 1/2

/-- One derived Event Row, the dict literal built at
src/sor_analiz.py lines 85-100. -/
structure Row where
  event_number : Option ℤ
  distance_m : ℚ
  rel_distance_m : ℚ
  event_loss_db : ℚ
  slope_db_per_km : ℚ
  section_loss_db : ℚ
  cumulative_loss_db : ℚ
  reflectance_db : ℚ
  event_type : Option String
  event : Option String
  note : Option String
  comment : String
  deriving DecidableEq, Repr

/-- A default row, used only as the out-of-range value for `List.getD`. -/
def defaultRow : Row :=
  { event_number := none, distance_m := 0, rel_distance_m := 0,
    event_loss_db := 0, slope_db_per_km := 0, section_loss_db := 0,
    cumulative_loss_db := 0, reflectance_db := 0, event_type := none,
    event := none, note := none, comment := "" }

/-- A default event, used only as the out-of-range value for `List.getD`. -/
def defaultEvent : Event :=
  { event_number := none, distance_of_travel := none, slope := none,
    splice_loss := none, reflection_loss := none, event_type := none,
    event_type_details := none, comment := none }

/-- The loop body of `extract_events_table` (lines 70-102), written as the
structural recursion it performs: the two carried loop variables
`prev_dist_m` and `cum_loss_db` are explicit arguments. -/
def buildRows (distance_factor : ℚ) :
    List Event → ℚ → ℚ → List Row
  | [], _, _ => []
  | e :: rest, prev_dist_m, cum_loss_db =>
    let dist_m := e.distance_of_travel.getD 0 * distance_factor
    let slope_db_per_km := e.slope.getD 0
    let event_loss_db := e.splice_loss.getD 0
    let reflectance_db := e.reflection_loss.getD 0
    let rel0 := dist_m - prev_dist_m
    let rel_dist_m := if rel0 < 0 then 0 else rel0
    let section_loss_db := slope_db_per_km * (rel_dist_m / 1000)
    let cum2 := cum_loss_db + (event_loss_db + section_loss_db)
    let etd := e.event_type_details.getD ⟨none, none⟩
    { event_number := e.event_number,
      distance_m := dist_m,
      rel_distance_m := rel_dist_m,
      event_loss_db := event_loss_db,
      slope_db_per_km := slope_db_per_km,
      section_loss_db := section_loss_db,
      cumulative_loss_db := cum2,
      reflectance_db := reflectance_db,
      event_type := e.event_type,
      event := etd.event,
      note := etd.note,
      comment := e.comment.getD "" } ::
    buildRows distance_factor rest dist_m cum2

/-- `extract_events_table` (src/sor_analiz.py lines 49-104): walk the
event list once, starting with `prev_dist_m = 0.0`, `cum_loss_db = 0.0`. -/
def extract_events_table (blocks : Blocks) (distance_factor : ℚ) :
    List Row :=
  buildRows distance_factor (eventsOf blocks) 0 0

/-- The Summary record returned by `summarize`. -/
structure Summary where
  fiber_length_m : ℚ
  fiber_length_km : ℚ
  total_loss_db : ℚ
  avg_att_db_per_km : Option ℚ
  optical_return_loss_db : Option ℚ
  deriving DecidableEq, Repr

/-- `summarize` (src/sor_analiz.py lines 107-134). -/
def summarize (blocks : Blocks) (rows : List Row) : Summary :=
  let ke := keOf blocks
  let fiber_length_m : ℚ :=
    match rows.map Row.distance_m with
    | [] => 0
    | d :: ds => ds.foldl max d
  let total_loss_db : ℚ :=
    match ke.total_loss with
    | none =>
        match rows.getLast? with
        | none => 0
        | some r => r.cumulative_loss_db
    | some t => t
  let fiber_length_km := fiber_length_m / 1000
  let avg_att_db_per_km : Option ℚ :=
    if fiber_length_km > 0 then some (total_loss_db / fiber_length_km)
    else none
  { fiber_length_m := fiber_length_m,
    fiber_length_km := fiber_length_km,
    total_loss_db := total_loss_db,
    avg_att_db_per_km := avg_att_db_per_km,
    optical_return_loss_db := ke.optical_return_loss }

/-- The caller-selected `--distance` option of `main`. -/
inductive DistanceMode where
  | auto
  | oneway
  | twoway
  deriving DecidableEq, Repr

/-- The mode-to-factor resolution performed by `main`
(src/sor_analiz.py lines 188-193) before the builder runs. -/
def resolve_distance_factor (mode : DistanceMode) (blocks : Blocks) : ℚ :=
  match mode with
  | .twoway => 1
  | .oneway => 1/2
  | .auto => auto_distance_factor blocks

/-- A CSV/console cell value: the row dict holds rationals, a nullable
integer, nullable strings and a plain string. -/
inductive Val where
  | num : ℚ → Val
  | oint : Option ℤ → Val
  | ostr : Option String → Val
  | str : String → Val
  deriving DecidableEq, Repr

/-- The row dict literal of src/sor_analiz.py lines 86-99 as an ordered
key/value list, in the literal's insertion order (the stable column order
`csv.DictWriter` later uses). -/
def Row.toAssoc (r : Row) : List (String × Val) :=
  [("event_number", .oint r.event_number),
   ("distance_m", .num r.distance_m),
   ("rel_distance_m", .num r.rel_distance_m),
   ("event_loss_db", .num r.event_loss_db),
   ("slope_db_per_km", .num r.slope_db_per_km),
   ("section_loss_db", .num r.section_loss_db),
   ("cumulative_loss_db", .num r.cumulative_loss_db),
   ("reflectance_db", .num r.reflectance_db),
   ("event_type", .ostr r.event_type),
   ("event", .ostr r.event),
   ("note", .ostr r.note),
   ("comment", .str r.comment)]

/-- The key order of the emitted row dict. -/
def rowFieldNames : List String :=
  ["event_number", "distance_m", "rel_distance_m", "event_loss_db",
   "slope_db_per_km", "section_loss_db", "cumulative_loss_db",
   "reflectance_db", "event_type", "event", "note", "comment"]

/-- Replace every missing optional numeric field of an event by an
explicit 0, the value the core substitutes when reading it. -/
def Event.fillZero (e : Event) : Event :=
  { e with
    distance_of_travel := some (e.distance_of_travel.getD 0),
    slope := some (e.slope.getD 0),
    splice_loss := some (e.splice_loss.getD 0),
    reflection_loss := some (e.reflection_loss.getD 0) }

/-- Replace the missing `KeyEvents` block, event list, per-event numeric
fields and `fiber_length` by their substituted defaults; `total_loss` and
`optical_return_loss` (whose absence means "fall back"/null, not 0) are
kept as they are. -/
def Blocks.fillZero (b : Blocks) : Blocks :=
  { KeyEvents := some
      { fiber_length := some ((keOf b).fiber_length.getD 0),
        total_loss := (keOf b).total_loss,
        optical_return_loss := (keOf b).optical_return_loss,
        events := some ((eventsOf b).map Event.fillZero) } }

/-- Concrete event with only a raw distance set. -/
def evD (d : ℚ) : Event := { defaultEvent with distance_of_travel := some d }

/-- Concrete event with distance, slope, splice loss and reflectance set,
the §8 scenario shape. -/
def evFull (d sl lo re : ℚ) : Event :=
  { defaultEvent with
    distance_of_travel := some d, slope := some sl,
    splice_loss := some lo, reflection_loss := some re }

/-- Concrete blocks with a fiber length and a list of event distances. -/
def blocksFL (fl : ℚ) (ds : List ℚ) : Blocks :=
  { KeyEvents := some { emptyKeyEvents with
      fiber_length := some fl, events := some (ds.map evD) } }

/-- The §8 scenario blocks: two events at raw distances 1000 and 2000,
slope -0.2 dB/km, splice losses 0.05 and 0.1 dB, fiber_length 1000. -/
def bScenario : Blocks :=
  { KeyEvents := some { emptyKeyEvents with
      fiber_length := some 1000,
      events := some [evFull 1000 (-2/10) (5/100) (-40),
                      evFull 2000 (-2/10) (1/10) (-35)] } }

/-- Blocks with a non-monotonic event list: raw distances 1000, 600, 900. -/
def bNonMono : Blocks :=
  { KeyEvents := some { emptyKeyEvents with
      events := some [evD 1000, evD 600, evD 900] } }

/-- Blocks carrying an authoritative `total_loss` of 12.5 dB. -/
def bTL : Blocks :=
  { KeyEvents := some { emptyKeyEvents with total_loss := some (125/10) } }

/-- Blocks with a single event at a negative raw distance. -/
def bNeg : Blocks :=
  { KeyEvents := some { emptyKeyEvents with events := some [evD (-1000)] } }

/-- Blocks with a single event carrying only a reflectance value. -/
def bRefl : Blocks :=
  { KeyEvents := some { emptyKeyEvents with
      events := some [{ defaultEvent with reflection_loss := some (-40) }] } }

/-! ### Builder lemmas -/

lemma buildRows_nil (f p c : ℚ) : buildRows f [] p c = [] := rfl

lemma buildRows_length (f : ℚ) (es : List Event) :
    ∀ (p c : ℚ), (buildRows f es p c).length = es.length := by
  induction es with
  | nil => intro p c; rfl
  | cons e rest ih =>
      intro p c
      simp only [buildRows, List.length_cons]
      rw [ih]

lemma buildRows_head_distance_m (f : ℚ) (e : Event) (rest : List Event)
    (p c : ℚ) :
    ((buildRows f (e :: rest) p c).getD 0 defaultRow).distance_m =
      e.distance_of_travel.getD 0 * f := rfl

lemma buildRows_head_rel (f : ℚ) (e : Event) (rest : List Event) (p c : ℚ) :
    ((buildRows f (e :: rest) p c).getD 0 defaultRow).rel_distance_m =
      if ((buildRows f (e :: rest) p c).getD 0 defaultRow).distance_m - p < 0
      then 0
      else ((buildRows f (e :: rest) p c).getD 0 defaultRow).distance_m - p :=
  rfl

lemma buildRows_head_section (f : ℚ) (e : Event) (rest : List Event)
    (p c : ℚ) :
    ((buildRows f (e :: rest) p c).getD 0 defaultRow).section_loss_db =
      ((buildRows f (e :: rest) p c).getD 0 defaultRow).slope_db_per_km *
      (((buildRows f (e :: rest) p c).getD 0 defaultRow).rel_distance_m /
        1000) := rfl

lemma buildRows_head_cum (f : ℚ) (e : Event) (rest : List Event) (p c : ℚ) :
    ((buildRows f (e :: rest) p c).getD 0 defaultRow).cumulative_loss_db =
      c + (((buildRows f (e :: rest) p c).getD 0 defaultRow).event_loss_db +
        ((buildRows f (e :: rest) p c).getD 0 defaultRow).section_loss_db) :=
  rfl

lemma buildRows_getD_succ (f : ℚ) (e : Event) (rest : List Event)
    (p c : ℚ) (i : ℕ) :
    (buildRows f (e :: rest) p c).getD (i + 1) defaultRow =
      (buildRows f rest
        (((buildRows f (e :: rest) p c).getD 0 defaultRow).distance_m)
        (((buildRows f (e :: rest) p c).getD 0
            defaultRow).cumulative_loss_db)).getD i defaultRow := rfl

/-- Consecutive rows of the builder: row `i+1`'s relative distance is the
clamped difference of its own calibrated distance and row `i`'s, and its
cumulative loss extends row `i`'s by its own event and section losses. -/
lemma buildRows_step (f : ℚ) (es : List Event) :
    ∀ (p c : ℚ) (i : ℕ), i + 1 < es.length →
    (((buildRows f es p c).getD (i + 1) defaultRow).rel_distance_m =
      if ((buildRows f es p c).getD (i + 1) defaultRow).distance_m -
          ((buildRows f es p c).getD i defaultRow).distance_m < 0 then 0
      else ((buildRows f es p c).getD (i + 1) defaultRow).distance_m -
          ((buildRows f es p c).getD i defaultRow).distance_m) ∧
    ((buildRows f es p c).getD (i + 1) defaultRow).cumulative_loss_db =
      ((buildRows f es p c).getD i defaultRow).cumulative_loss_db +
      (((buildRows f es p c).getD (i + 1) defaultRow).event_loss_db +
        ((buildRows f es p c).getD (i + 1) defaultRow).section_loss_db) := by
  induction es with
  | nil => intro p c i h; simp at h
  | cons e rest ih =>
      intro p c i h
      cases i with
      | zero =>
          cases rest with
          | nil => simp at h
          | cons e2 rest2 => exact ⟨rfl, rfl⟩
      | succ j =>
          simp only [buildRows_getD_succ]
          refine ih _ _ j ?_
          simp only [List.length_cons] at h
          omega

/-- Every row satisfies the section-loss formula. -/
lemma buildRows_section_formula (f : ℚ) (es : List Event) :
    ∀ (p c : ℚ) (r : Row), r ∈ buildRows f es p c →
      r.section_loss_db = r.slope_db_per_km * (r.rel_distance_m / 1000) := by
  induction es with
  | nil => intro p c r hr; simp [buildRows] at hr
  | cons e rest ih =>
      intro p c r hr
      simp only [buildRows, List.mem_cons] at hr
      rcases hr with rfl | hr
      · rfl
      · exact ih _ _ r hr

/-- Every row's relative distance is clamped to be nonnegative. -/
lemma buildRows_rel_nonneg (f : ℚ) (es : List Event) :
    ∀ (p c : ℚ) (r : Row), r ∈ buildRows f es p c →
      0 ≤ r.rel_distance_m := by
  induction es with
  | nil => intro p c r hr; simp [buildRows] at hr
  | cons e rest ih =>
      intro p c r hr
      simp only [buildRows, List.mem_cons] at hr
      rcases hr with rfl | hr
      · dsimp only
        split_ifs with h
        · exact le_refl 0
        · exact le_of_not_lt h
      · exact ih _ _ r hr

lemma mem_of_getD {α : Type} (l : List α) (n : ℕ) (d : α)
    (h : n < l.length) : l.getD n d ∈ l := by
  rw [List.getD_eq_getElem l d h]
  exact List.getElem_mem h

/-! ### Calibrator lemmas -/

lemma auto_distance_factor_eq_some (b : Blocks) (fl : ℚ)
    (h : (keOf b).fiber_length = some fl) :
    auto_distance_factor b =
      if fl ≠ 0 ∧ maxEventDistance (eventsOf b) ≠ 0 then
        (if 17/10 < maxEventDistance (eventsOf b) / fl ∧
            maxEventDistance (eventsOf b) / fl < 23/10 then 1/2
         else if 85/100 < maxEventDistance (eventsOf b) / fl ∧
            maxEventDistance (eventsOf b) / fl < 115/100 then 1
         else 1/2)
      else 1/2 := by
  simp only [auto_distance_factor, eventsOf, h]

lemma auto_distance_factor_eq_none (b : Blocks)
    (h : (keOf b).fiber_length = none) :
    auto_distance_factor b = 1/2 := by
  simp only [auto_distance_factor, eventsOf, h]

/-- C1: with `fiber_length` present and nonzero and a nonzero maximum event
distance, the calibrator returns 1/2 when the ratio lies in (1.7, 2.3),
1 when it lies in (0.85, 1.15), and 1/2 when the ratio is outside both
bands; it also returns 1/2 when either value is missing or zero. -/
theorem auto_distance_factor_spec (b : Blocks) :
    (∀ fl, (keOf b).fiber_length = some fl → fl ≠ 0 →
      maxEventDistance (eventsOf b) ≠ 0 →
      ((17/10 < maxEventDistance (eventsOf b) / fl ∧
          maxEventDistance (eventsOf b) / fl < 23/10) →
        auto_distance_factor b = 1/2) ∧
      ((85/100 < maxEventDistance (eventsOf b) / fl ∧
          maxEventDistance (eventsOf b) / fl < 115/100) →
        auto_distance_factor b = 1) ∧
      (¬(17/10 < maxEventDistance (eventsOf b) / fl ∧
           maxEventDistance (eventsOf b) / fl < 23/10) →
       ¬(85/100 < maxEventDistance (eventsOf b) / fl ∧
           maxEventDistance (eventsOf b) / fl < 115/100) →
        auto_distance_factor b = 1/2)) ∧
    ((keOf b).fiber_length = none ∨ (keOf b).fiber_length = some 0 ∨
      maxEventDistance (eventsOf b) = 0 →
      auto_distance_factor b = 1/2) := by
  constructor
  · intro fl hfl hfl0 hmax
    rw [auto_distance_factor_eq_some b fl hfl]
    rw [if_pos ⟨hfl0, hmax⟩]
    refine ⟨?_, ?_, ?_⟩
    · intro hband
      rw [if_pos hband]
    · intro hband
      have hnot : ¬(17/10 < maxEventDistance (eventsOf b) / fl ∧
          maxEventDistance (eventsOf b) / fl < 23/10) := by
        rintro ⟨h1, _⟩
        have := hband.2
        linarith
      rw [if_neg hnot, if_pos hband]
    · intro h1 h2
      rw [if_neg h1, if_neg h2]
  · rintro (h | h | h)
    · exact auto_distance_factor_eq_none b h
    · rw [auto_distance_factor_eq_some b 0 h]
      simp
    · rcases hfl : (keOf b).fiber_length with _ | fl
      · exact auto_distance_factor_eq_none b hfl
      · rw [auto_distance_factor_eq_some b fl hfl]
        simp [h]

/-- Witness for C1: ratio 2 gives 1/2, ratio 1 gives 1, ratio 3 gives 1/2. -/
theorem auto_distance_factor_spec_witness :
    auto_distance_factor (blocksFL 1000 [2000]) = 1/2 ∧
    auto_distance_factor (blocksFL 1000 [1000]) = 1 ∧
    auto_distance_factor (blocksFL 1000 [3000]) = 1/2 := by
  have h2000 : maxEventDistance (eventsOf (blocksFL 1000 [2000])) = 2000 := by
    decide
  have h1000 : maxEventDistance (eventsOf (blocksFL 1000 [1000])) = 1000 := by
    decide
  have h3000 : maxEventDistance (eventsOf (blocksFL 1000 [3000])) = 3000 := by
    decide
  refine ⟨?_, ?_, ?_⟩
  · exact ((auto_distance_factor_spec (blocksFL 1000 [2000])).1 1000
      (by decide) (by decide) (by rw [h2000]; norm_num)).1
      (by rw [h2000]; norm_num)
  · exact (((auto_distance_factor_spec (blocksFL 1000 [1000])).1 1000
      (by decide) (by decide) (by rw [h1000]; norm_num)).2).1
      (by rw [h1000]; norm_num)
  · exact (((auto_distance_factor_spec (blocksFL 1000 [3000])).1 1000
      (by decide) (by decide) (by rw [h3000]; norm_num)).2).2
      (by rw [h3000]; norm_num) (by rw [h3000]; norm_num)

/-- C10: the calibrator's result is always exactly 1/2 or exactly 1, never
any other scale factor. -/
theorem auto_distance_factor_half_or_one (b : Blocks) :
    auto_distance_factor b = 1/2 ∨ auto_distance_factor b = 1 := by
  rcases hfl : (keOf b).fiber_length with _ | fl
  · exact Or.inl (auto_distance_factor_eq_none b hfl)
  · rw [auto_distance_factor_eq_some b fl hfl]
    split_ifs <;> simp

/-- C7: mode "twoway" resolves to factor 1, mode "oneway" to factor 1/2,
with no dependence on the blocks; only mode "auto" invokes the ratio
heuristic. -/
theorem resolve_distance_factor_spec (b : Blocks) :
    resolve_distance_factor .twoway b = 1 ∧
    resolve_distance_factor .oneway b = 1/2 ∧
    resolve_distance_factor .auto b = auto_distance_factor b :=
  ⟨rfl, rfl, rfl⟩

/-- C6: every row produced by the Event Table Builder has a nonnegative
relative distance. -/
theorem extract_events_table_rel_nonneg (b : Blocks) (f : ℚ) (r : Row)
    (hr : r ∈ extract_events_table b f) : 0 ≤ r.rel_distance_m :=
  buildRows_rel_nonneg f (eventsOf b) 0 0 r hr

/-- Witness for C6 at the non-monotonic blocks (its second row is the
clamped one). -/
theorem extract_events_table_rel_nonneg_witness :
    (extract_events_table bNonMono 1).getD 1 defaultRow ∈
      extract_events_table bNonMono 1 ∧
    0 ≤ ((extract_events_table bNonMono 1).getD 1
      defaultRow).rel_distance_m := by
  have hlen : 1 < (extract_events_table bNonMono 1).length := by
    rw [extract_events_table, buildRows_length]
    decide
  have hmem := mem_of_getD (extract_events_table bNonMono 1) 1 defaultRow hlen
  exact ⟨hmem, extract_events_table_rel_nonneg bNonMono 1 _ hmem⟩

/-- C2: each row's cumulative loss is the previous row's cumulative loss
(0 for row 0) plus the row's own event loss and section loss, and the
section loss is the slope times the relative distance in km. -/
theorem extract_events_table_cumulative (b : Blocks) (f : ℚ) (i : ℕ)
    (hi : i < (extract_events_table b f).length) :
    ((extract_events_table b f).getD i defaultRow).cumulative_loss_db =
      (if i = 0 then 0
       else ((extract_events_table b f).getD (i - 1)
          defaultRow).cumulative_loss_db) +
      ((extract_events_table b f).getD i defaultRow).event_loss_db +
      ((extract_events_table b f).getD i defaultRow).section_loss_db ∧
    ((extract_events_table b f).getD i defaultRow).section_loss_db =
      ((extract_events_table b f).getD i defaultRow).slope_db_per_km *
      (((extract_events_table b f).getD i defaultRow).rel_distance_m /
        1000) := by
  have hlen : i < (eventsOf b).length := by
    rwa [extract_events_table, buildRows_length] at hi
  constructor
  · cases i with
    | zero =>
        obtain ⟨e, rest, hes⟩ : ∃ e rest, eventsOf b = e :: rest := by
          cases hes : eventsOf b with
          | nil => rw [hes] at hlen; simp at hlen
          | cons e rest => exact ⟨e, rest, rfl⟩
        simp only [extract_events_table, hes]
        rw [buildRows_head_cum]
        simp only [if_true]
        ring
    | succ j =>
        rw [if_neg (Nat.succ_ne_zero j)]
        have hstep := (buildRows_step f (eventsOf b) 0 0 j
          (by simpa using hlen)).2
        simp only [extract_events_table, Nat.succ_sub_one]
        rw [hstep]
        ring
  · exact buildRows_section_formula f (eventsOf b) 0 0 _
      (mem_of_getD _ i defaultRow hi)

/-- Witness for C2: the §8 scenario at row index 1. -/
theorem extract_events_table_cumulative_witness :
    1 < (extract_events_table bScenario (1/2)).length ∧
    (((extract_events_table bScenario (1/2)).getD 1
        defaultRow).cumulative_loss_db =
      (if (1:ℕ) = 0 then 0
       else ((extract_events_table bScenario (1/2)).getD 0
          defaultRow).cumulative_loss_db) +
      ((extract_events_table bScenario (1/2)).getD 1
        defaultRow).event_loss_db +
      ((extract_events_table bScenario (1/2)).getD 1
        defaultRow).section_loss_db ∧
    ((extract_events_table bScenario (1/2)).getD 1
        defaultRow).section_loss_db =
      ((extract_events_table bScenario (1/2)).getD 1
        defaultRow).slope_db_per_km *
      (((extract_events_table bScenario (1/2)).getD 1
        defaultRow).rel_distance_m / 1000)) := by
  have hlen : 1 < (extract_events_table bScenario (1/2)).length := by
    rw [extract_events_table, buildRows_length]
    decide
  exact ⟨hlen, extract_events_table_cumulative bScenario (1/2) 1 hlen⟩

/-- The relative distance of any row is the clamped difference between its
own calibrated distance and the previous row's (0 before row 0). -/
lemma extract_events_table_rel_formula (b : Blocks) (f : ℚ) (i : ℕ)
    (hi : i < (extract_events_table b f).length) :
    ((extract_events_table b f).getD i defaultRow).rel_distance_m =
      if ((extract_events_table b f).getD i defaultRow).distance_m -
          (if i = 0 then 0
           else ((extract_events_table b f).getD (i - 1)
              defaultRow).distance_m) < 0 then 0
      else ((extract_events_table b f).getD i defaultRow).distance_m -
          (if i = 0 then 0
           else ((extract_events_table b f).getD (i - 1)
              defaultRow).distance_m) := by
  have hlen : i < (eventsOf b).length := by
    rwa [extract_events_table, buildRows_length] at hi
  cases i with
  | zero =>
      obtain ⟨e, rest, hes⟩ : ∃ e rest, eventsOf b = e :: rest := by
        cases hes : eventsOf b with
        | nil => rw [hes] at hlen; simp at hlen
        | cons e rest => exact ⟨e, rest, rfl⟩
      simp only [extract_events_table, hes, if_true]
      exact buildRows_head_rel f e rest 0 0
  | succ j =>
      rw [if_neg (Nat.succ_ne_zero j)]
      have hstep := (buildRows_step f (eventsOf b) 0 0 j
        (by simpa using hlen)).1
      simp only [extract_events_table, Nat.succ_sub_one, Nat.add_sub_cancel]
      exact hstep

/-- C3: a row whose calibrated distance regresses below the carried
previous distance has its relative distance clamped to 0 and its section
loss equal to 0, and the carried distance is still advanced, so the next
row's relative distance is computed against the clamped row's own
(lower) distance. -/
theorem extract_events_table_clamp (b : Blocks) (f : ℚ) (i : ℕ)
    (hi : i < (extract_events_table b f).length)
    (hlt : ((extract_events_table b f).getD i defaultRow).distance_m <
      (if i = 0 then 0
       else ((extract_events_table b f).getD (i - 1)
          defaultRow).distance_m)) :
    ((extract_events_table b f).getD i defaultRow).rel_distance_m = 0 ∧
    ((extract_events_table b f).getD i defaultRow).section_loss_db = 0 ∧
    ∀ _ : i + 1 < (extract_events_table b f).length,
      ((extract_events_table b f).getD (i + 1) defaultRow).rel_distance_m =
        if ((extract_events_table b f).getD (i + 1) defaultRow).distance_m -
            ((extract_events_table b f).getD i defaultRow).distance_m < 0
        then 0
        else ((extract_events_table b f).getD (i + 1)
            defaultRow).distance_m -
          ((extract_events_table b f).getD i defaultRow).distance_m := by
  have hrel : ((extract_events_table b f).getD i defaultRow).rel_distance_m
      = 0 := by
    rw [extract_events_table_rel_formula b f i hi, if_pos (by linarith)]
  refine ⟨hrel, ?_, ?_⟩
  · have hsec := buildRows_section_formula f (eventsOf b) 0 0 _
      (mem_of_getD _ i defaultRow hi)
    rw [extract_events_table] at hrel ⊢
    rw [hsec, hrel]
    norm_num
  · intro hj
    have hlen : i + 1 < (eventsOf b).length := by
      rwa [extract_events_table, buildRows_length] at hj
    have hstep := (buildRows_step f (eventsOf b) 0 0 i hlen).1
    simp only [extract_events_table]
    exact hstep

/-- Witness for C3 at the non-monotonic blocks: raw distances 1000, 600,
900 with factor 1; row 1 regresses (600 < 1000), is clamped, and row 2's
relative distance is taken against 600. -/
theorem extract_events_table_clamp_witness :
    1 < (extract_events_table bNonMono 1).length ∧
    ((extract_events_table bNonMono 1).getD 1 defaultRow).distance_m <
      (if (1:ℕ) = 0 then 0
       else ((extract_events_table bNonMono 1).getD 0
          defaultRow).distance_m) ∧
    (((extract_events_table bNonMono 1).getD 1 defaultRow).rel_distance_m
        = 0 ∧
    ((extract_events_table bNonMono 1).getD 1 defaultRow).section_loss_db
        = 0 ∧
    ∀ _ : 1 + 1 < (extract_events_table bNonMono 1).length,
      ((extract_events_table bNonMono 1).getD (1 + 1)
          defaultRow).rel_distance_m =
        if ((extract_events_table bNonMono 1).getD (1 + 1)
              defaultRow).distance_m -
            ((extract_events_table bNonMono 1).getD 1
              defaultRow).distance_m < 0
        then 0
        else ((extract_events_table bNonMono 1).getD (1 + 1)
              defaultRow).distance_m -
          ((extract_events_table bNonMono 1).getD 1
            defaultRow).distance_m) := by
  have hlen : 1 < (extract_events_table bNonMono 1).length := by
    rw [extract_events_table, buildRows_length]
    decide
  have hd1 : ((extract_events_table bNonMono 1).getD 1
      defaultRow).distance_m = 600 * 1 := by
    have := buildRows_getD_succ 1 (evD 1000) [evD 600, evD 900] 0 0 0
    rw [extract_events_table]
    show ((buildRows 1 (eventsOf bNonMono) 0 0).getD 1
      defaultRow).distance_m = 600 * 1
    rw [show eventsOf bNonMono = [evD 1000, evD 600, evD 900] from rfl]
    rw [buildRows_getD_succ]
    rw [buildRows_head_distance_m]
    rfl
  have hd0 : ((extract_events_table bNonMono 1).getD 0
      defaultRow).distance_m = 1000 * 1 := by
    rw [extract_events_table]
    rw [show eventsOf bNonMono = [evD 1000, evD 600, evD 900] from rfl]
    rw [buildRows_head_distance_m]
    rfl
  have hlt : ((extract_events_table bNonMono 1).getD 1
      defaultRow).distance_m <
      (if (1:ℕ) = 0 then 0
       else ((extract_events_table bNonMono 1).getD 0
          defaultRow).distance_m) := by
    rw [if_neg (by norm_num : (1:ℕ) ≠ 0), hd0, hd1]
    norm_num
  exact ⟨hlen, hlt, extract_events_table_clamp bNonMono 1 1 hlen hlt⟩

/-! ### Summary lemmas and claims -/

/-- C4: `total_loss_db` is `KeyEvents.total_loss` verbatim when present,
else the last row's cumulative loss, else 0. -/
theorem summarize_total_loss (b : Blocks) (rows : List Row) :
    (∀ t, (keOf b).total_loss = some t →
      (summarize b rows).total_loss_db = t) ∧
    ((keOf b).total_loss = none → ∀ r, rows.getLast? = some r →
      (summarize b rows).total_loss_db = r.cumulative_loss_db) ∧
    ((keOf b).total_loss = none → rows = [] →
      (summarize b rows).total_loss_db = 0) := by
  refine ⟨?_, ?_, ?_⟩
  · intro t ht
    simp only [summarize, ht]
  · intro hn r hr
    simp only [summarize, hn, hr]
  · intro hn hr
    subst hr
    simp only [summarize, hn, List.getLast?]

/-- Witness for C4: `total_loss = 12.5` is used verbatim; a missing
`total_loss` falls back to the last cumulative loss, or 0 with no rows. -/
theorem summarize_total_loss_witness :
    ((keOf bTL).total_loss = some (125/10) ∧
      (summarize bTL [defaultRow]).total_loss_db = 125/10) ∧
    ((keOf bNonMono).total_loss = none ∧
      [defaultRow].getLast? = some defaultRow ∧
      (summarize bNonMono [defaultRow]).total_loss_db =
        defaultRow.cumulative_loss_db) ∧
    ((keOf bNonMono).total_loss = none ∧
      (summarize bNonMono ([] : List Row)).total_loss_db = 0) := by
  refine ⟨⟨rfl, ?_⟩, ⟨rfl, rfl, ?_⟩, ⟨rfl, ?_⟩⟩
  · exact (summarize_total_loss bTL [defaultRow]).1 (125/10) rfl
  · exact (summarize_total_loss bNonMono [defaultRow]).2.1 rfl
      defaultRow rfl
  · exact (summarize_total_loss bNonMono []).2.2 rfl rfl

/-- Counterexample for C5 as stated: with a single event at raw distance
-1000 the summary's `fiber_length_km` is -1/2, which is nonzero, yet
`avg_att_db_per_km` is null rather than `total_loss_db / fiber_length_km`
(the code guards `fiber_length_km > 0`, not `fiber_length_km ≠ 0`). -/
theorem summarize_avg_att_counterexample :
    (summarize bNeg (extract_events_table bNeg (1/2))).fiber_length_km
      ≠ 0 ∧
    (summarize bNeg (extract_events_table bNeg (1/2))).avg_att_db_per_km
      ≠ some
        ((summarize bNeg (extract_events_table bNeg (1/2))).total_loss_db /
         (summarize bNeg
           (extract_events_table bNeg (1/2))).fiber_length_km) := by
  have hkm : (summarize bNeg
      (extract_events_table bNeg (1/2))).fiber_length_km = -1/2 := by
    norm_num [summarize, extract_events_table, eventsOf, keOf, bNeg,
      buildRows, evD, defaultEvent, emptyKeyEvents]
  have havg : (summarize bNeg
      (extract_events_table bNeg (1/2))).avg_att_db_per_km = none := by
    norm_num [summarize, extract_events_table, eventsOf, keOf, bNeg,
      buildRows, evD, defaultEvent, emptyKeyEvents]
  rw [hkm, havg]
  refine ⟨by norm_num, ?_⟩
  simp

/-- C5 amended: `avg_att_db_per_km` is null whenever `fiber_length_km` is
not positive (in particular when it is zero), and equals
`total_loss_db / fiber_length_km` whenever `fiber_length_km` is
positive. -/
theorem summarize_avg_att_amended (b : Blocks) (rows : List Row) :
    ((summarize b rows).fiber_length_km ≤ 0 →
      (summarize b rows).avg_att_db_per_km = none) ∧
    (0 < (summarize b rows).fiber_length_km →
      (summarize b rows).avg_att_db_per_km =
        some ((summarize b rows).total_loss_db /
          (summarize b rows).fiber_length_km)) := by
  constructor <;> intro h <;>
    simp only [summarize] at h ⊢ <;>
    split_ifs with hc
  · exact absurd hc (not_lt.mpr h)
  · rfl
  · rfl
  · exact absurd h (not_lt.mpr (le_of_not_lt hc))

/-- Witness for C5 amended: a summary over one zero-distance row has
`fiber_length_km = 0` and a null average attenuation. -/
theorem summarize_avg_att_amended_witness :
    (summarize bTL [defaultRow]).fiber_length_km ≤ 0 ∧
    (summarize bTL [defaultRow]).avg_att_db_per_km = none := by
  have h : (summarize bTL [defaultRow]).fiber_length_km ≤ 0 := by
    norm_num [summarize, keOf, bTL, emptyKeyEvents, defaultRow]
  exact ⟨h, (summarize_avg_att_amended bTL [defaultRow]).1 h⟩

/-! ### Default-substitution (C8) -/

lemma maxEventDistance_fillZero (es : List Event) :
    maxEventDistance (es.map Event.fillZero) = maxEventDistance es := by
  unfold maxEventDistance
  rw [List.map_map]
  rfl

lemma buildRows_fillZero (f : ℚ) (es : List Event) :
    ∀ (p c : ℚ),
      buildRows f (es.map Event.fillZero) p c = buildRows f es p c := by
  induction es with
  | nil => intro p c; rfl
  | cons e rest ih =>
      intro p c
      simp only [List.map_cons, buildRows]
      congr 1
      exact ih _ _

/-- C8: every component is total (each is a total function of its
embedded inputs) and treats every missing optional numeric field exactly
as the explicit 0 — replacing the absent `KeyEvents` block, event list,
`fiber_length` and per-event numeric fields by their zero defaults
changes no component's output. -/
theorem components_default_zero (b : Blocks) (f : ℚ) (rows : List Row) :
    auto_distance_factor (Blocks.fillZero b) = auto_distance_factor b ∧
    extract_events_table (Blocks.fillZero b) f =
      extract_events_table b f ∧
    summarize (Blocks.fillZero b) rows = summarize b rows := by
  refine ⟨?_, ?_, ?_⟩
  · have hev : eventsOf (Blocks.fillZero b) =
        (eventsOf b).map Event.fillZero := rfl
    rcases hfl : (keOf b).fiber_length with _ | fl
    · rw [auto_distance_factor_eq_some (Blocks.fillZero b)
        ((keOf b).fiber_length.getD 0) rfl, auto_distance_factor_eq_none b
        hfl, hfl]
      simp
    · rw [auto_distance_factor_eq_some (Blocks.fillZero b)
        ((keOf b).fiber_length.getD 0) rfl,
        auto_distance_factor_eq_some b fl hfl, hfl, hev,
        maxEventDistance_fillZero]
      rfl
  · show buildRows f ((eventsOf b).map Event.fillZero) 0 0 =
      buildRows f (eventsOf b) 0 0
    exact buildRows_fillZero f (eventsOf b) 0 0
  · rfl

/-! ### Row shape (C9) -/

lemma toAssoc_keys (r : Row) : r.toAssoc.map Prod.fst = rowFieldNames :=
  rfl

/-- Each row carries its source event's data: the identifying and
descriptive fields verbatim, and the numeric fields read with the
0-default and (for the distance) the calibration factor. -/
lemma buildRows_fields (f : ℚ) (es : List Event) :
    ∀ (p c : ℚ) (i : ℕ), i < es.length →
      ((buildRows f es p c).getD i defaultRow).event_number =
        (es.getD i defaultEvent).event_number ∧
      ((buildRows f es p c).getD i defaultRow).distance_m =
        (es.getD i defaultEvent).distance_of_travel.getD 0 * f ∧
      ((buildRows f es p c).getD i defaultRow).event_loss_db =
        (es.getD i defaultEvent).splice_loss.getD 0 ∧
      ((buildRows f es p c).getD i defaultRow).slope_db_per_km =
        (es.getD i defaultEvent).slope.getD 0 ∧
      ((buildRows f es p c).getD i defaultRow).reflectance_db =
        (es.getD i defaultEvent).reflection_loss.getD 0 ∧
      ((buildRows f es p c).getD i defaultRow).event_type =
        (es.getD i defaultEvent).event_type ∧
      ((buildRows f es p c).getD i defaultRow).event =
        ((es.getD i defaultEvent).event_type_details.getD
          ⟨none, none⟩).event ∧
      ((buildRows f es p c).getD i defaultRow).note =
        ((es.getD i defaultEvent).event_type_details.getD
          ⟨none, none⟩).note ∧
      ((buildRows f es p c).getD i defaultRow).comment =
        (es.getD i defaultEvent).comment.getD "" := by
  induction es with
  | nil => intro p c i h; simp at h
  | cons e rest ih =>
      intro p c i h
      cases i with
      | zero => exact ⟨rfl, rfl, rfl, rfl, rfl, rfl, rfl, rfl, rfl⟩
      | succ j =>
          simp only [buildRows_getD_succ, List.getD_cons_succ]
          exact ih _ _ j (by simpa using h)

/-- Counterexample for C9 as stated: the emitted row does not carry the
Event's `reflection_loss` field name — the reflectance value is emitted
under the key `reflectance_db` instead. -/
theorem row_keys_counterexample :
    (extract_events_table bRefl 1).length = 1 ∧
    "reflection_loss" ∉
      ((extract_events_table bRefl 1).getD 0 defaultRow).toAssoc.map
        Prod.fst := by
  constructor
  · rw [extract_events_table, buildRows_length]
    rfl
  · rw [toAssoc_keys]
    decide

/-- C9 amended: the builder emits exactly one row per input event, in
input order, each row carrying the same key sequence `event_number`,
`distance_m`, `rel_distance_m`, `event_loss_db`, `slope_db_per_km`,
`section_loss_db`, `cumulative_loss_db`, `reflectance_db` (the Event's
`reflection_loss` value under this name), `event_type`, `event`, `note`,
`comment`, with each row's identifying and descriptive data taken from
the event at the same index. -/
theorem extract_events_table_rows_amended (b : Blocks) (f : ℚ) :
    (extract_events_table b f).length = (eventsOf b).length ∧
    ∀ i, i < (eventsOf b).length →
      ((extract_events_table b f).getD i defaultRow).toAssoc.map
          Prod.fst = rowFieldNames ∧
      ((extract_events_table b f).getD i defaultRow).event_number =
        ((eventsOf b).getD i defaultEvent).event_number ∧
      ((extract_events_table b f).getD i defaultRow).reflectance_db =
        ((eventsOf b).getD i defaultEvent).reflection_loss.getD 0 ∧
      ((extract_events_table b f).getD i defaultRow).event_type =
        ((eventsOf b).getD i defaultEvent).event_type ∧
      ((extract_events_table b f).getD i defaultRow).comment =
        ((eventsOf b).getD i defaultEvent).comment.getD "" := by
  constructor
  · rw [extract_events_table, buildRows_length]
  · intro i hi
    have hf := buildRows_fields f (eventsOf b) 0 0 i hi
    exact ⟨toAssoc_keys _, hf.1, hf.2.2.2.2.1, hf.2.2.2.2.2.1,
      hf.2.2.2.2.2.2.2.2⟩

/-- Witness for C9 amended: the single-event blocks produce one row whose
reflectance is the event's reflection value. -/
theorem extract_events_table_rows_amended_witness :
    0 < (eventsOf bRefl).length ∧
    ((extract_events_table bRefl 1).getD 0 defaultRow).toAssoc.map
      Prod.fst = rowFieldNames ∧
    ((extract_events_table bRefl 1).getD 0 defaultRow).reflectance_db =
      ((eventsOf bRefl).getD 0 defaultEvent).reflection_loss.getD 0 := by
  have h0 : 0 < (eventsOf bRefl).length := by decide
  have h := (extract_events_table_rows_amended bRefl 1).2 0 h0
  exact ⟨h0, h.1, h.2.2.1⟩

end SorAnaliz
